import Mathlib

/-!
Verification of the original logic of `src/app.py` (PolicyEngine
computation-tree explainer): the indentation-based trace-to-graph parser
`create_computation_graph`, the exception boundary of `get_explanation`,
and the household-description builder executed on form submission.

Python strings are embedded as their character sequences (`List Char`);
Python dictionaries whose insertion order matters are embedded as
association lists.
-/

namespace AppPy

abbrev Str := List Char

/-! ### Trace-to-graph parser (src/app.py, `create_computation_graph`) -/

abbrev Line := Str
abbrev Node := Str
abbrev Edge := Node × Node

/-- `" " * k`: a run of `k` space characters. -/
def spaces (k : Nat) : Str := List.replicate k ' '

/-- Python `line.startswith(p)`. -/
def pyStartsWith (line p : Str) : Bool := p.isPrefixOf line

/-- Python `s.strip()`: remove leading and trailing whitespace. -/
def pyStrip (s : Str) : Str :=
  ((s.dropWhile Char.isWhitespace).reverse.dropWhile Char.isWhitespace).reverse

/-- `line.strip().split("=")[0].strip()`: the node label extracted from a
trace line (text before the first `=` of the trimmed line, trimmed again;
the whole trimmed line when no `=` occurs). -/
def nodeLabel (line : Line) : Node :=
  pyStrip ((pyStrip line).takeWhile (fun c => c ≠ '='))

/-- The synthetic root label `"root"`. -/
def rootNode : Node := "root".toList

/-- `MAX_DEPTH = 5` (src/app.py line 13). -/
def MAX_DEPTH : Nat := 5

/-- The loop state of `create_computation_graph`: the accumulated edge list
of the `nx.DiGraph` (duplicate `add_edge` calls collapsed), `current_depth`,
and `parent_stack` with the top of the Python list (`parent_stack[-1]`) at
the head. -/
structure PState where
  G : List Edge
  depth : Nat
  stack : List Node
deriving Repr, DecidableEq

/-- `G.add_edge(u, v)` on a `networkx.DiGraph`: a repeated edge is collapsed. -/
def addEdge (G : List Edge) (e : Edge) : List Edge :=
  if e ∈ G then G else G ++ [e]

/-- The `while` loop of the "go back up" branch: decrement `current_depth`
and `parent_stack.pop()` until the line starts with `current_depth * 2`
spaces or depth 0 is reached. `none` models the `IndexError` of `pop()` on
an empty list. -/
def popUp (line : Line) : Nat → List Node → Option (Nat × List Node)
  | 0, stk => some (0, stk)
  | d + 1, stk =>
    if pyStartsWith line (spaces ((d + 1) * 2)) then some (d + 1, stk)
    else
      match stk with
      | [] => none
      | _ :: rest => popUp line d rest

/-- One iteration of the `for line in log_lines` loop of
`create_computation_graph` (src/app.py lines 49-70). `none` models an
uncaught `IndexError` from `parent_stack[-1]` or `parent_stack.pop()` on an
empty list. -/
def stepLine (max_depth : Nat) (st : PState) (line : Line) : Option PState :=
  let adjusted : Option (Nat × List Node) :=
    if pyStartsWith line (spaces (st.depth * 2)) then
      some (st.depth, st.stack)
    else if pyStartsWith line (spaces ((st.depth + 1) * 2)) then
      if st.depth < max_depth then
        match st.stack with
        | [] => none
        | p :: rest => some (st.depth + 1, p :: p :: rest)
      else some (st.depth, st.stack)
    else
      popUp line st.depth st.stack
  match adjusted with
  | none => none
  | some (d1, stk1) =>
    if d1 ≤ max_depth then
      match stk1 with
      | [] => none
      | p :: rest =>
        some ⟨addEdge st.G (p, nodeLabel line), d1, nodeLabel line :: rest⟩
    else some ⟨st.G, d1, stk1⟩

/-- `create_computation_graph(log_lines, max_depth)` (src/app.py lines
44-72), returning the edge list of the resulting graph, or `none` if the
Python code would raise. -/
def create_computation_graph (log_lines : List Line) (max_depth : Nat) :
    Option (List Edge) :=
  (log_lines.foldlM (stepLine max_depth) ⟨[], 0, [rootNode]⟩).map PState.G

/-- The chain graph `root → label l₁ → label l₂ → …` with duplicate edges
collapsed, starting from edge list `G` and previous node `p`. -/
def chainGraph (G : List Edge) (p : Node) : List Line → List Edge
  | [] => G
  | l :: ls => chainGraph (addEdge G (p, nodeLabel l)) (nodeLabel l) ls

/-- The last node of the chain: `p` for no lines, else the label of the
final line. -/
def chainLast (p : Node) : List Line → Node
  | [] => p
  | l :: ls => chainLast (nodeLabel l) ls

/-! ### Explanation requester (src/app.py, `get_explanation`) -/

/-- The fixed text `"Failed to get explanation: "` prepended to the
stringified exception. -/
def failHeader : Str := "Failed to get explanation: ".toList

/-- `get_explanation` (src/app.py lines 16-41). The external call
`client.messages.create(...)` together with `response.content[0].text` is
represented by its outcome: `Except.ok text` when the body of the `try`
returns `text`, `Except.error e` when anything inside it raises an
exception whose `str(...)` is `e`. The `except Exception` clause catches
every exception, so the function is total: it returns a `Str` and never
propagates a failure. -/
def get_explanation (callResult : Except Str Str) : Str :=
  match callResult with
  | Except.ok text => text
  | Except.error e => failHeader ++ e

/-! ### Household builder (src/app.py, the `situation` block, lines 112-156) -/

/-- A person entry: time-indexed `age` and `employment_income`, each a
`{period: value}` dictionary with the single period of the submission. -/
structure Person where
  age : Str × Nat
  employment_income : Str × Nat
deriving Repr, DecidableEq

/-- A group entry (`"your family"`, `"your marital unit"`, `"your tax
unit"`): a member list of person identifiers. -/
structure Group where
  members : List Str
deriving Repr, DecidableEq

/-- The household group `"your household"`: members plus the time-indexed
`state_name`. -/
structure HouseholdGroup where
  members : List Str
  state_name : Str × Str
deriving Repr, DecidableEq

/-- The situation dictionary: insertion-ordered `people`, and the single
group of each of `families` / `marital_units` / `tax_units` /
`households`. -/
structure Situation where
  people : List (Str × Person)
  families : Group
  marital_units : Group
  tax_units : Group
  households : HouseholdGroup
deriving Repr, DecidableEq

/-- `DEFAULT_CHILD_AGE = 5` (src/app.py line 98). -/
def DEFAULT_CHILD_AGE : Nat := 5

/-- The initial situation literal (src/app.py lines 112-128): the primary
person `"you"` alone in every group. -/
def baseSituation (age income : Nat) (state period : Str) : Situation where
  people := [("you".toList, ⟨(period, age), (period, income)⟩)]
  families := ⟨["you".toList]⟩
  marital_units := ⟨["you".toList]⟩
  tax_units := ⟨["you".toList]⟩
  households := ⟨["you".toList], (period, state)⟩

/-- The `if married:` block (src/app.py lines 138-145): add the person
`"spouse"` with the same age and zero income, and append `"spouse"` to the
member list of every unit in `unit_names` — families, marital units, tax
units and households. -/
def addSpouse (s : Situation) (age : Nat) (period : Str) : Situation where
  people := s.people ++ [("spouse".toList, ⟨(period, age), (period, 0)⟩)]
  families := ⟨s.families.members ++ ["spouse".toList]⟩
  marital_units := ⟨s.marital_units.members ++ ["spouse".toList]⟩
  tax_units := ⟨s.tax_units.members ++ ["spouse".toList]⟩
  households := ⟨s.households.members ++ ["spouse".toList], s.households.state_name⟩

/-- `f"child_{i+1}"` for loop index `i` (0-based): the identifier of the
`(i+1)`-th child. -/
def childName (k : Nat) : Str := "child_".toList ++ (toString k).toList

/-- A child person entry: age `DEFAULT_CHILD_AGE`, zero income. -/
def childPerson (period : Str) : Person := ⟨(period, DEFAULT_CHILD_AGE), (period, 0)⟩

/-- One iteration of the `for i in range(num_children)` loop (src/app.py
lines 148-156): add the child person and append its identifier to every
unit except `marital_units`. -/
def addChild (s : Situation) (i : Nat) (period : Str) : Situation where
  people := s.people ++ [(childName (i + 1), childPerson period)]
  families := ⟨s.families.members ++ [childName (i + 1)]⟩
  marital_units := s.marital_units
  tax_units := ⟨s.tax_units.members ++ [childName (i + 1)]⟩
  households := ⟨s.households.members ++ [childName (i + 1)], s.households.state_name⟩

/-- The whole children loop. -/
def addChildren (s : Situation) (num_children : Nat) (period : Str) : Situation :=
  (List.range num_children).foldl (fun acc i => addChild acc i period) s

/-- The household builder: the situation constructed on submission
(src/app.py lines 112-156) from the form inputs. -/
def buildSituation (age income : Nat) (married : Bool) (num_children : Nat)
    (state period : Str) : Situation :=
  addChildren
    (if married then addSpouse (baseSituation age income state period) age period
     else baseSituation age income state period)
    num_children period

/-- The four member lists of the situation's groups. -/
def memberLists (s : Situation) : List (List Str) :=
  [s.families.members, s.marital_units.members, s.tax_units.members,
   s.households.members]

/-- The person identifiers, in insertion order. -/
def peopleNames (s : Situation) : List Str := s.people.map Prod.fst

/-- The identifiers `child_1 .. child_n`, in order. -/
def childNames (n : Nat) : List Str := (List.range n).map (fun i => childName (i + 1))

/-- The child entries of the people dictionary, in insertion order. -/
def childEntries (n : Nat) (period : Str) : List (Str × Person) :=
  (List.range n).map (fun i => (childName (i + 1), childPerson period))

/-- The identifiers of the adults: `"you"`, then `"spouse"` when married. -/
def coreNames (married : Bool) : List Str :=
  "you".toList :: (if married then ["spouse".toList] else [])

/-! ### Lemmas -/

lemma pyStartsWith_spaces_zero (l : Line) : pyStartsWith l (spaces 0) = true := by
  simp [pyStartsWith, spaces, List.isPrefixOf]

lemma stepLine_depth_zero (md : Nat) (G : List Edge) (p : Node) (line : Line) :
    stepLine md ⟨G, 0, [p]⟩ line
      = some ⟨addEdge G (p, nodeLabel line), 0, [nodeLabel line]⟩ := by
  simp [stepLine, pyStartsWith_spaces_zero]

/-- The whole loop, started at depth 0 with a singleton stack, always
succeeds, stays at depth 0 with a singleton stack, and builds the chain. -/
lemma foldlM_stepLine_chain (md : Nat) (lines : List Line) (G : List Edge)
    (p : Node) :
    lines.foldlM (stepLine md) (⟨G, 0, [p]⟩ : PState)
      = some ⟨chainGraph G p lines, 0, [chainLast p lines]⟩ := by
  induction lines generalizing G p with
  | nil => rfl
  | cons l ls ih =>
    rw [List.foldlM_cons, stepLine_depth_zero]
    simpa [chainGraph, chainLast] using ih (addEdge G (p, nodeLabel l)) (nodeLabel l)

lemma addChildren_succ (s : Situation) (n : Nat) (period : Str) :
    addChildren s (n + 1) period = addChild (addChildren s n period) n period := by
  unfold addChildren
  rw [List.range_succ, List.foldl_append, List.foldl_cons, List.foldl_nil]

lemma addChildren_spec (s : Situation) (n : Nat) (period : Str) :
    (addChildren s n period).people = s.people ++ childEntries n period
    ∧ (addChildren s n period).families.members = s.families.members ++ childNames n
    ∧ (addChildren s n period).marital_units = s.marital_units
    ∧ (addChildren s n period).tax_units.members = s.tax_units.members ++ childNames n
    ∧ (addChildren s n period).households.members = s.households.members ++ childNames n
    ∧ (addChildren s n period).households.state_name = s.households.state_name := by
  induction n with
  | zero => simp [addChildren, childEntries, childNames]
  | succ n ih =>
    obtain ⟨h1, h2, h3, h4, h5, h6⟩ := ih
    rw [addChildren_succ]
    refine ⟨?_, ?_, ?_, ?_, ?_, ?_⟩ <;>
      simp [addChild, h1, h2, h3, h4, h5, h6, childEntries, childNames,
        List.range_succ]

/-- Full characterization of the builder output. -/
lemma buildSituation_spec (age income : Nat) (married : Bool) (n : Nat)
    (state period : Str) :
    (buildSituation age income married n state period).people
        = ("you".toList, (⟨(period, age), (period, income)⟩ : Person))
            :: (if married then [("spouse".toList, ⟨(period, age), (period, 0)⟩)] else [])
            ++ childEntries n period
    ∧ (buildSituation age income married n state period).families.members
        = coreNames married ++ childNames n
    ∧ (buildSituation age income married n state period).marital_units.members
        = coreNames married
    ∧ (buildSituation age income married n state period).tax_units.members
        = coreNames married ++ childNames n
    ∧ (buildSituation age income married n state period).households.members
        = coreNames married ++ childNames n
    ∧ (buildSituation age income married n state period).households.state_name
        = (period, state) := by
  unfold buildSituation
  obtain ⟨h1, h2, h3, h4, h5, h6⟩ :=
    addChildren_spec
      (if married then addSpouse (baseSituation age income state period) age period
       else baseSituation age income state period) n period
  cases married <;>
    simp_all [baseSituation, addSpouse, coreNames]

lemma childName_ne_spouse (k : Nat) : childName k ≠ "spouse".toList := by
  intro h
  have : ('c' :: ('h' :: ('i' :: ('l' :: ('d' :: ('_' :: (toString k).toList))))))
      = "spouse".toList := h
  simp at this

lemma childName_ne_you (k : Nat) : childName k ≠ "you".toList := by
  intro h
  have : ('c' :: ('h' :: ('i' :: ('l' :: ('d' :: ('_' :: (toString k).toList))))))
      = "you".toList := h
  simp at this

lemma spouse_not_mem_childNames (n : Nat) : "spouse".toList ∉ childNames n := by
  intro h
  obtain ⟨i, _, hi⟩ := List.mem_map.mp h
  exact childName_ne_spouse (i + 1) hi

lemma you_not_mem_childNames (n : Nat) : "you".toList ∉ childNames n := by
  intro h
  obtain ⟨i, _, hi⟩ := List.mem_map.mp h
  exact childName_ne_you (i + 1) hi

lemma childEntries_length (n : Nat) (period : Str) :
    (childEntries n period).length = n := by
  simp [childEntries]

lemma peopleNames_buildSituation (age income : Nat) (married : Bool) (n : Nat)
    (state period : Str) :
    peopleNames (buildSituation age income married n state period)
      = coreNames married ++ childNames n := by
  have h1 := (buildSituation_spec age income married n state period).1
  cases married <;>
    simp [peopleNames, h1, coreNames, childNames, childEntries,
      List.map_map, Function.comp]

/-! ### Claim theorems -/

/-- C9: the depth-0 same-level check `line.startswith(" " * 0)` holds for
every string, so `current_depth` stays 0 and `parent_stack` stays a
singleton through the whole loop, and the returned graph is always the
chain `root → label l₁ → label l₂ → …` (duplicate edges collapsed, labels
extracted by `nodeLabel`), regardless of the lines' indentation. -/
theorem c9_parser_always_chain (lines : List Line) (max_depth : Nat) :
    lines.foldlM (stepLine max_depth) (⟨[], 0, [rootNode]⟩ : PState)
        = some ⟨chainGraph [] rootNode lines, 0, [chainLast rootNode lines]⟩
    ∧ create_computation_graph lines max_depth
        = some (chainGraph [] rootNode lines) := by
  refine ⟨foldlM_stepLine_chain _ _ _ _, ?_⟩
  unfold create_computation_graph
  rw [foldlM_stepLine_chain]
  rfl

/-- C10: on every finite list of lines (empty strings, no `=`, arbitrary
indentation, empty list included) and every bound, `create_computation_graph`
returns a graph: it never hits the `none` (exception) cases. -/
theorem c10_parser_never_fails (lines : List Line) (max_depth : Nat) :
    (create_computation_graph lines max_depth).isSome = true := by
  unfold create_computation_graph
  rw [foldlM_stepLine_chain]
  rfl

/-- C1 (code evaluated at the claim's input): on
`["a = 1", "  b = 2", "  c = 3", "d = 4"]` with `max_depth = 5` the code
returns the chain root→a→b→c→d — the edges a→c and root→d required by the
claim are absent, and b→c, c→d are present instead. -/
theorem c1_code_divergence :
    create_computation_graph
        ["a = 1".toList, "  b = 2".toList, "  c = 3".toList, "d = 4".toList] 5
      = some [("root".toList, "a".toList), ("a".toList, "b".toList),
              ("b".toList, "c".toList), ("c".toList, "d".toList)] := by
  decide

/-- C2 (code evaluated at a failing input): after the line `"  b = 2"`,
whose leading whitespace is exactly one two-space level deeper than
`current_depth = 0 < 5 = max_depth`, the state still has depth 0 and a
singleton stack: no increment and no placeholder push happened, because the
same-level prefix check `line.startswith("")` subsumed the go-deeper
check. -/
theorem c2_no_depth_increment :
    ["a = 1".toList, "  b = 2".toList].foldlM (stepLine 5)
        (⟨[], 0, [rootNode]⟩ : PState)
      = some ⟨[("root".toList, "a".toList), ("a".toList, "b".toList)], 0,
              ["b".toList]⟩ := by
  decide

/-- C3 (code evaluated at a failing input): with `max_depth = 1`, the line
`"    c = 3"` is nested two levels deep, beyond the bound, yet the code
still adds an edge for it (`current_depth` never leaves 0, so the
`current_depth <= max_depth` guard never skips a line). -/
theorem c3_deep_line_edge_added :
    create_computation_graph
        ["a = 1".toList, "  b = 2".toList, "    c = 3".toList] 1
      = some [("root".toList, "a".toList), ("a".toList, "b".toList),
              ("b".toList, "c".toList)] := by
  decide

/-- C4: whenever the body of the `try` raises (outcome `Except.error e` for
any exception text `e`), `get_explanation` returns exactly
`"Failed to get explanation: " ++ e`, a string beginning with
`"Failed to get explanation:"`; being a total function on every outcome, it
never propagates the failure past this boundary. -/
theorem c4_failure_boundary (e : Str) :
    get_explanation (Except.error e) = failHeader ++ e
    ∧ pyStartsWith (get_explanation (Except.error e))
        ("Failed to get explanation:".toList) = true := by
  refine ⟨rfl, ?_⟩
  show ("Failed to get explanation:".toList).isPrefixOf (failHeader ++ e) = true
  have hh : failHeader = "Failed to get explanation:".toList ++ [' '] := by decide
  rw [hh, List.append_assoc, List.isPrefixOf_iff_prefix]
  exact List.prefix_append _ _

/-- C5: the builder produces exactly `1 + (if married then 1 else 0) +
num_children` person entries; every group's member list is exactly the
expected identifiers, with the marital unit excluding the children; and for
`married = false` the identifier `"spouse"` appears in no group. -/
theorem c5_builder_counts (age income : Nat) (married : Bool)
    (num_children : Nat) (state period : Str) :
    (buildSituation age income married num_children state period).people.length
        = 1 + (if married then 1 else 0) + num_children
    ∧ (buildSituation age income married num_children state period).families.members
        = coreNames married ++ childNames num_children
    ∧ (buildSituation age income married num_children state period).marital_units.members
        = coreNames married
    ∧ (buildSituation age income married num_children state period).tax_units.members
        = coreNames married ++ childNames num_children
    ∧ (buildSituation age income married num_children state period).households.members
        = coreNames married ++ childNames num_children
    ∧ (married = false →
        ∀ g ∈ memberLists (buildSituation age income married num_children state period),
          "spouse".toList ∉ g) := by
  obtain ⟨h1, h2, h3, h4, h5, h6⟩ :=
    buildSituation_spec age income married num_children state period
  refine ⟨?_, h2, h3, h4, h5, ?_⟩
  · rw [h1]
    cases married <;> simp [childEntries_length] <;> omega
  · intro hm g hg
    subst hm
    have hsp : "spouse".toList ∉ childNames num_children :=
      spouse_not_mem_childNames _
    have hne : ("spouse".toList : Str) ≠ "you".toList := by decide
    simp only [memberLists, h2, h3, h4, h5, List.mem_cons, List.mem_singleton,
      List.not_mem_nil, or_false] at hg
    rcases hg with rfl | rfl | rfl | rfl <;> simp [coreNames, hne] <;>
      simpa using hsp

/-- C5 witness: for married = false with two children, "spouse" is not in
the family members. -/
theorem c5_builder_counts_witness :
    "spouse".toList ∉
      (buildSituation 40 20000 false 2 "CA".toList "2024".toList).families.members :=
  (c5_builder_counts 40 20000 false 2 "CA".toList "2024".toList).2.2.2.2.2 rfl
    _ (by simp [memberLists])

/-- C6 counterexample: at age 40, income 20000, married, two children, the
code has appended "spouse" to the marital unit's member list, refuting the
claim that the spouse is appended to family, tax unit and household "and
not to the marital unit". -/
theorem c6_spouse_in_marital_unit :
    "spouse".toList ∈
      (buildSituation 40 20000 true 2 "CA".toList "2024".toList).marital_units.members := by
  decide

/-- C6 (amended): when married, the builder adds the person "spouse" with
the same age as the primary person and zero employment income, and appends
"spouse" to all four groups — family, marital unit, tax unit, and
household; a spouse entry is present in the people dictionary iff the
marital-status flag is set. -/
theorem c6_spouse_block_amended (age income : Nat) (married : Bool)
    (num_children : Nat) (state period : Str) :
    (married = true →
      ("spouse".toList, (⟨(period, age), (period, 0)⟩ : Person))
          ∈ (buildSituation age income married num_children state period).people
      ∧ ∀ g ∈ memberLists (buildSituation age income married num_children state period),
          "spouse".toList ∈ g)
    ∧ ("spouse".toList
          ∈ peopleNames (buildSituation age income married num_children state period)
        ↔ married = true) := by
  obtain ⟨h1, h2, h3, h4, h5, h6⟩ :=
    buildSituation_spec age income married num_children state period
  have hnames := peopleNames_buildSituation age income married num_children state period
  constructor
  · intro hm
    subst hm
    constructor
    · rw [h1]; simp
    · intro g hg
      have hcore : "spouse".toList ∈ coreNames true := by simp [coreNames]
      simp only [memberLists, h2, h3, h4, h5, List.mem_cons, List.mem_singleton,
        List.not_mem_nil, or_false] at hg
      rcases hg with rfl | rfl | rfl | rfl
      · exact List.mem_append.mpr (Or.inl hcore)
      · exact hcore
      · exact List.mem_append.mpr (Or.inl hcore)
      · exact List.mem_append.mpr (Or.inl hcore)
  · rw [hnames]
    cases married with
    | false =>
      simp only [iff_false, Bool.false_eq_true]
      intro hmem
      rcases List.mem_append.mp hmem with hc | hc
      · simp [coreNames] at hc
      · exact spouse_not_mem_childNames _ hc
    | true =>
      simp only [iff_true]
      exact List.mem_append.mpr (Or.inl (by simp [coreNames]))

/-- C6 witness: the amended spouse block evaluated at a married input. -/
theorem c6_spouse_block_amended_witness :
    ("spouse".toList, (⟨("2024".toList, 40), ("2024".toList, 0)⟩ : Person))
        ∈ (buildSituation 40 20000 true 2 "CA".toList "2024".toList).people :=
  ((c6_spouse_block_amended 40 20000 true 2 "CA".toList "2024".toList).1 rfl).1

/-- C7: the children block creates exactly `num_children` child persons
with identifiers `child_1 .. child_N` (1-based) in insertion order, each
with age `DEFAULT_CHILD_AGE = 5` and zero employment income, each appended
to family, tax unit and household but not to the marital unit; for
`num_children = 0` no identifier of the form `child_*` occurs among the
people. -/
theorem c7_children_block (age income : Nat) (married : Bool)
    (num_children : Nat) (state period : Str) :
    (buildSituation age income married num_children state period).people
        = ("you".toList, (⟨(period, age), (period, income)⟩ : Person))
            :: (if married then
                  [("spouse".toList, ⟨(period, age), (period, 0)⟩)] else [])
            ++ (List.range num_children).map
                (fun i => (childName (i + 1), (⟨(period, 5), (period, 0)⟩ : Person)))
    ∧ (buildSituation age income married num_children state period).families.members
        = coreNames married ++ childNames num_children
    ∧ (buildSituation age income married num_children state period).tax_units.members
        = coreNames married ++ childNames num_children
    ∧ (buildSituation age income married num_children state period).households.members
        = coreNames married ++ childNames num_children
    ∧ (buildSituation age income married num_children state period).marital_units.members
        = coreNames married
    ∧ (num_children = 0 →
        ∀ k ∈ peopleNames (buildSituation age income married num_children state period),
          ("child_".toList).isPrefixOf k = false) := by
  obtain ⟨h1, h2, h3, h4, h5, h6⟩ :=
    buildSituation_spec age income married num_children state period
  refine ⟨?_, h2, h4, h5, h3, ?_⟩
  · rw [h1]
    simp [childEntries, childPerson, DEFAULT_CHILD_AGE]
  · intro hz k hk
    subst hz
    rw [peopleNames_buildSituation] at hk
    simp only [childNames, List.range_zero, List.map_nil, List.append_nil] at hk
    cases married with
    | false =>
      simp [coreNames] at hk
      subst hk
      decide
    | true =>
      simp [coreNames] at hk
      rcases hk with rfl | rfl <;> decide

/-- C7 witness: at a married input with zero children, the identifier
`"you"` does not begin with `child_`. -/
theorem c7_children_block_witness :
    ("child_".toList).isPrefixOf "you".toList = false :=
  (c7_children_block 40 20000 true 0 "CA".toList "2024".toList).2.2.2.2.2 rfl
    "you".toList (by decide)

/-- C8: every person identifier referenced in any group's member list is a
key of `people`, and the primary person `"you"` is present in `people` and
in every group. -/
theorem c8_membership_invariant (age income : Nat) (married : Bool)
    (num_children : Nat) (state period : Str) :
    (∀ g ∈ memberLists (buildSituation age income married num_children state period),
      ∀ name ∈ g,
        name ∈ peopleNames (buildSituation age income married num_children state period))
    ∧ "you".toList
        ∈ peopleNames (buildSituation age income married num_children state period)
    ∧ ∀ g ∈ memberLists (buildSituation age income married num_children state period),
        "you".toList ∈ g := by
  obtain ⟨h1, h2, h3, h4, h5, h6⟩ :=
    buildSituation_spec age income married num_children state period
  have hnames := peopleNames_buildSituation age income married num_children state period
  have hyou : "you".toList ∈ coreNames married := by simp [coreNames]
  refine ⟨?_, ?_, ?_⟩
  · intro g hg name hn
    rw [hnames]
    simp only [memberLists, h2, h3, h4, h5, List.mem_cons, List.mem_singleton,
      List.not_mem_nil, or_false] at hg
    rcases hg with rfl | rfl | rfl | rfl
    · exact hn
    · exact List.mem_append.mpr (Or.inl hn)
    · exact hn
    · exact hn
  · rw [hnames]
    exact List.mem_append.mpr (Or.inl hyou)
  · intro g hg
    simp only [memberLists, h2, h3, h4, h5, List.mem_cons, List.mem_singleton,
      List.not_mem_nil, or_false] at hg
    rcases hg with rfl | rfl | rfl | rfl
    · exact List.mem_append.mpr (Or.inl hyou)
    · exact hyou
    · exact List.mem_append.mpr (Or.inl hyou)
    · exact List.mem_append.mpr (Or.inl hyou)

/-- C8 witness: at a married input with two children, "spouse" (a member of
the family group) is a key of `people`. -/
theorem c8_membership_invariant_witness :
    "spouse".toList
      ∈ peopleNames (buildSituation 40 20000 true 2 "CA".toList "2024".toList) :=
  (c8_membership_invariant 40 20000 true 2 "CA".toList "2024".toList).1
    (buildSituation 40 20000 true 2 "CA".toList "2024".toList).families.members
    (by simp [memberLists]) "spouse".toList (by decide)

end AppPy
